import Mathlib

/-!
# Virtual file system class hierarchy (`ipr2.cpp`)

A shallow embedding of the classes `VFSObjectTime`, `File`, `Directory`,
the three driver singletons and `DriverFactory`, followed by theorems about them.

Modelling conventions.

* `std::string` is `String`, `char` is `Char`, `size_t` is `Nat`.  `length()` counts
  bytes in the source and characters here; every statement about sizes uses the same
  measure on both sides.
* `time(NULL)` is an external capability.  It is modelled by `Clock`: a sequence
  of readings together with the number of readings already taken, and the time zone
  of the process.  Timestamps are what the source stores: the text
  `asctime(localtime(t))` of a reading `t`.  `localtime` and `asctime` are C library
  functions; they are written out after the C standard (the `asctime` format
  `"%.3s %.3s%3d %.2d:%.2d:%.2d %d\n"`) and the Gregorian calendar, for readings from
  1970 on.  The time zone is a parameter: the wall-clock seconds shown at each instant.
* Methods of `File` / `Directory` act on `this`; they are functions on the
  object state.  Methods that call `VFSObjectTime::initCurrentDate` thread a `Clock`.
* Pointer identity only matters for the driver singletons.  There the process state
  carries a heap (`new` appends an object, a pointer is its index, `NULL` is `none`)
  and the static member `AbstractDriver::instance`.
-/

namespace VFS

/-! ## Constants -/

def DRIVER_NATIVE : String := "native"
def DRIVER_BLOCK : String := "block"
def DRIVER_FTP : String := "ftp"
def ROOT_NATIVE : String := "syscall"
def ROOT_BLOCK : String := "block.binary"
def ROOT_FTP : String := "/"
def ENCODING_ASCII : String := "ASCII"
def ENCODING_LATIN_1 : String := "ISO 8859-1"
def ENCODING_UTF_8 : String := "UTF-8"
def DEFAULT_FILENAME : String := "new_file"
def EMPTY_VALUE : String := ""

def MODE_WRITE : Char := 'a'
def MODE_REWRITE : Char := 'w'

/-! ## Clock -/

/-- The system clock: `readings n` is what the `n`-th call of `time(NULL)` in the
process returns (seconds since 1970-01-01 00:00:00 UTC), `calls` counts the calls made
so far, and `zone t` is the time zone of the process: the seconds since 1970-01-01
00:00:00 that the local wall clock shows at instant `t`, that is `t` plus the offset
from UTC in force at `t` (the identity under UTC). -/
structure Clock where
  readings : Nat → Nat
  calls : Nat
  zone : Nat → Nat

/-- Broken-down time `struct tm`: the fields that `asctime` prints. -/
structure Tm where
  tm_sec : Nat
  tm_min : Nat
  tm_hour : Nat
  tm_mday : Nat
  tm_mon : Nat
  tm_year : Nat
  tm_wday : Nat
  deriving DecidableEq, Repr

/-- Calendar date and time of day of a wall-clock reading in seconds since 1970-01-01
00:00:00 (Gregorian calendar; `tm_mon` counts from 0, `tm_year` from 1900, `tm_wday`
from Sunday). -/
def civil (wall : Nat) : Tm :=
  let days := wall / 86400
  let secs := wall % 86400
  let z := days + 719468
  let era := z / 146097
  let doe := z % 146097
  let yoe := (doe - doe / 1460 + doe / 36524 - doe / 146096) / 365
  let doy := doe - (365 * yoe + yoe / 4 - yoe / 100)
  let mp := (5 * doy + 2) / 153
  let month := if mp < 10 then mp + 3 else mp - 9
  let year := yoe + era * 400 + (if month ≤ 2 then 1 else 0)
  { tm_sec := secs % 60
    tm_min := secs / 60 % 60
    tm_hour := secs / 3600
    tm_mday := doy - (153 * mp + 2) / 5 + 1
    tm_mon := month - 1
    tm_year := year - 1900
    tm_wday := (days + 4) % 7 }

/-- C library function `localtime`: the broken-down local time of the instant `seconds`
in the time zone `zone`. -/
def localtime (zone : Nat → Nat) (seconds : Nat) : Tm :=
  civil (zone seconds)

/-- Table `wday_name` of `asctime`. -/
def wday_name : Nat → String
  | 0 => "Sun" | 1 => "Mon" | 2 => "Tue" | 3 => "Wed" | 4 => "Thu" | 5 => "Fri"
  | _ => "Sat"

/-- Table `mon_name` of `asctime`. -/
def mon_name : Nat → String
  | 0 => "Jan" | 1 => "Feb" | 2 => "Mar" | 3 => "Apr" | 4 => "May" | 5 => "Jun"
  | 6 => "Jul" | 7 => "Aug" | 8 => "Sep" | 9 => "Oct" | 10 => "Nov" | _ => "Dec"

/-- Conversion `%3d` of a natural number. -/
def width3 (n : Nat) : String :=
  if n < 10 then "  " ++ toString n else if n < 100 then " " ++ toString n else toString n

/-- Conversion `%.2d` of a natural number. -/
def digits2 (n : Nat) : String :=
  if n < 10 then "0" ++ toString n else toString n

/-- C library function `asctime`: the text `Www Mmm dd hh:mm:ss yyyy` followed by a
newline. -/
def asctime (timeinfo : Tm) : String :=
  wday_name timeinfo.tm_wday ++ " " ++ mon_name timeinfo.tm_mon ++
    width3 timeinfo.tm_mday ++ " " ++ digits2 timeinfo.tm_hour ++ ":" ++
    digits2 timeinfo.tm_min ++ ":" ++ digits2 timeinfo.tm_sec ++ " " ++
    toString (1900 + timeinfo.tm_year) ++ "\n"

/-- Method `VFSObjectTime::initCurrentDate()`: reads the clock (`time(NULL)`) and
returns `asctime(localtime(&seconds))`. -/
def VFSObjectTime.initCurrentDate (clk : Clock) : String × Clock :=
  let seconds := clk.readings clk.calls
  let timeinfo := localtime clk.zone seconds
  (asctime timeinfo, { clk with calls := clk.calls + 1 })

/-! ## File -/

/-- Private members of `class File`. -/
structure File where
  _path : String
  _name : String
  _creationDate : String
  _modificationDate : String
  data : String
  deriving DecidableEq, Repr

namespace File

/-- Constructor `File(fPath, fName)`, reached through `File::getInstance(fPath, fName)`
(`new File(fPath, fName)`): the state of the freshly constructed object. -/
def getInstance (fPath fName : String) (clk : Clock) : File × Clock :=
  let now := VFSObjectTime.initCurrentDate clk
  ({ _path := fPath
     _name := fName
     _creationDate := now.1
     _modificationDate := now.1
     data := EMPTY_VALUE }, now.2)

/-- Method `File::path()`. -/
def path (self : File) : String := self._path

/-- Method `File::name()`. -/
def name (self : File) : String := self._name

/-- Method `File::fSize()`: `data.length()`. -/
def fSize (self : File) : Nat := self.data.length

/-- Method `File::creationDate()`. -/
def creationDate (self : File) : String := self._creationDate

/-- Method `File::modificationDate()`. -/
def modificationDate (self : File) : String := self._modificationDate

/-- Method `File::read()`. -/
def read (self : File) : String := self.data

/-- The `switch (mode)` of `File::write`: the object after the selected branch, or
`none` when the `default: return;` branch is taken. -/
def writeSwitch (newData : String) (mode : Char) (self : File) : Option File :=
  if mode = MODE_REWRITE then some { self with data := newData }
  else if mode = MODE_WRITE then some { self with data := self.data ++ newData }
  else none

/-- Method `File::write(newData, mode)`: the `switch`, then, unless the `default`
branch returned, the assignment of the current date to `_modificationDate`. -/
def write (newData : String) (mode : Char) (self : File) (clk : Clock) : File × Clock :=
  match writeSwitch newData mode self with
  | none => (self, clk)
  | some f =>
    let now := VFSObjectTime.initCurrentDate clk
    ({ f with _modificationDate := now.1 }, now.2)

/-- Method `File::moveTo(newPath)`. -/
def moveTo (newPath : String) (self : File) : File :=
  { self with _path := newPath }

/-- Method `File::rename(newName)`. -/
def rename (newName : String) (self : File) : File :=
  { self with _name := newName }

end File

/-- One step in the life of a `File` object: a call of one of its mutating methods,
or a reading of the clock taken for another object between two such calls. -/
inductive FileCall where
  | write (newData : String) (mode : Char)
  | moveTo (newPath : String)
  | rename (newName : String)
  | clockElsewhere
  deriving DecidableEq, Repr

/-- Effect of one `FileCall` on the object and on the clock. -/
def FileCall.run : FileCall → File × Clock → File × Clock
  | .write newData mode, s => File.write newData mode s.1 s.2
  | .moveTo newPath, s => (File.moveTo newPath s.1, s.2)
  | .rename newName, s => (File.rename newName s.1, s.2)
  | .clockElsewhere, s => (s.1, (VFSObjectTime.initCurrentDate s.2).2)

/-- Effect of a sequence of calls, first call first. -/
def runCalls : List FileCall → File × Clock → File × Clock
  | [], s => s
  | c :: cs, s => runCalls cs (c.run s)

/-! ## Directory -/

/-- Private members of `class Directory`. -/
structure Directory where
  _path : String
  _creationDate : String
  deriving DecidableEq, Repr

namespace Directory

/-- Constructor `Directory(dPath)`, reached through `Directory::getInstance(dPath)`. -/
def getInstance (dPath : String) (clk : Clock) : Directory × Clock :=
  let now := VFSObjectTime.initCurrentDate clk
  ({ _path := dPath, _creationDate := now.1 }, now.2)

/-- Method `Directory::path()`. -/
def path (self : Directory) : String := self._path

/-- Method `Directory::creationDate()`. -/
def creationDate (self : Directory) : String := self._creationDate

/-- Method `Directory::moveTo(newPath)`. -/
def moveTo (newPath : String) (self : Directory) : Directory :=
  { self with _path := newPath }

end Directory

/-! ## Drivers -/

/-- A pointer: the index of an object in the heap, `none` for `NULL`. -/
abbrev Ptr := Option Nat

/-- Members of a driver object (`AbstractDriver` together with the `rootElement`
member that each of `DriverNative`, `DriverBlock`, `DriverFtp` declares and assigns). -/
structure Driver where
  driverName : String
  fileNameEncoding : String
  rootElement : Ptr
  deriving DecidableEq, Repr

/-- An object allocated with `new`. -/
inductive VFSObject where
  | file (f : File)
  | directory (d : Directory)
  | driver (d : Driver)
  deriving DecidableEq, Repr

/-- Process state relevant to the drivers: the clock, the objects allocated so far
and the static member `AbstractDriver::instance`, which the three driver classes share. -/
structure Process where
  clock : Clock
  heap : List VFSObject
  instancePtr : Ptr

/-- State at program start: nothing allocated, `AbstractDriver::instance = NULL`. -/
def Process.start (clk : Clock) : Process :=
  { clock := clk, heap := [], instancePtr := none }

/-- Operator `new`: places the object in the heap and returns its address. -/
def Process.alloc (o : VFSObject) (s : Process) : Ptr × Process :=
  (some s.heap.length, { s with heap := s.heap ++ [o] })

/-- Dereferences a pointer. -/
def Process.deref (s : Process) : Ptr → Option VFSObject
  | none => none
  | some a => s.heap[a]?

/-- Expression `new DriverNative()`: the constructor creates the root file, then the driver
object is placed in the heap. -/
def DriverNative.construct (s : Process) : Ptr × Process :=
  let root := File.getInstance EMPTY_VALUE ROOT_NATIVE s.clock
  let r := Process.alloc (.file root.1) { s with clock := root.2 }
  Process.alloc (.driver { driverName := DRIVER_NATIVE
                           fileNameEncoding := ENCODING_ASCII
                           rootElement := r.1 }) r.2

/-- Method `DriverNative::getInstance()`. -/
def DriverNative.getInstance (s : Process) : Ptr × Process :=
  if s.instancePtr = none then
    let d := DriverNative.construct s
    (d.1, { d.2 with instancePtr := d.1 })
  else (s.instancePtr, s)

/-- Expression `new DriverBlock()`. -/
def DriverBlock.construct (s : Process) : Ptr × Process :=
  let root := File.getInstance EMPTY_VALUE ROOT_BLOCK s.clock
  let r := Process.alloc (.file root.1) { s with clock := root.2 }
  Process.alloc (.driver { driverName := DRIVER_BLOCK
                           fileNameEncoding := ENCODING_LATIN_1
                           rootElement := r.1 }) r.2

/-- Method `DriverBlock::getInstance()`. -/
def DriverBlock.getInstance (s : Process) : Ptr × Process :=
  if s.instancePtr = none then
    let d := DriverBlock.construct s
    (d.1, { d.2 with instancePtr := d.1 })
  else (s.instancePtr, s)

/-- Expression `new DriverFtp()`. -/
def DriverFtp.construct (s : Process) : Ptr × Process :=
  let root := Directory.getInstance ROOT_FTP s.clock
  let r := Process.alloc (.directory root.1) { s with clock := root.2 }
  Process.alloc (.driver { driverName := DRIVER_FTP
                           fileNameEncoding := ENCODING_UTF_8
                           rootElement := r.1 }) r.2

/-- Method `DriverFtp::getInstance()`. -/
def DriverFtp.getInstance (s : Process) : Ptr × Process :=
  if s.instancePtr = none then
    let d := DriverFtp.construct s
    (d.1, { d.2 with instancePtr := d.1 })
  else (s.instancePtr, s)

/-- Method `DriverFactory::create(driverName)`; the result `none` is `NULL`. -/
def DriverFactory.create (driverName : String) (s : Process) : Ptr × Process :=
  if driverName = DRIVER_NATIVE then DriverNative.getInstance s
  else if driverName = DRIVER_BLOCK then DriverBlock.getInstance s
  else if driverName = DRIVER_FTP then DriverFtp.getInstance s
  else (none, s)

/-- Call `driver->getDriverName()` through a pointer; `none` when the pointer does not
address a driver object. -/
def Process.getDriverName (s : Process) (p : Ptr) : Option String :=
  match s.deref p with
  | some (.driver d) => some d.driverName
  | _ => none

/-- Call `driver->getFileNameEncoding()` through a pointer. -/
def Process.getFileNameEncoding (s : Process) (p : Ptr) : Option String :=
  match s.deref p with
  | some (.driver d) => some d.fileNameEncoding
  | _ => none

/-- Call `driver->getRootElement()` through a pointer: the address of the root object. -/
def Process.getRootElement (s : Process) (p : Ptr) : Ptr :=
  match s.deref p with
  | some (.driver d) => d.rootElement
  | _ => none

/-- The root object that a driver pointer exposes. -/
def Process.rootObject (s : Process) (p : Ptr) : Option VFSObject :=
  s.deref (s.getRootElement p)

/-- One step of a process that uses the factory: a call of `DriverFactory::create`, or
the creation of a file or of a directory by the application
(`File::getInstance`, `Directory::getInstance`). -/
inductive ProcessCall where
  | create (driverName : String)
  | newFile (fPath fName : String)
  | newDirectory (dPath : String)
  deriving DecidableEq, Repr

/-- Effect of one `ProcessCall` on the process state. -/
def ProcessCall.run : ProcessCall → Process → Process
  | .create driverName, s => (DriverFactory.create driverName s).2
  | .newFile fPath fName, s =>
    (Process.alloc (.file (File.getInstance fPath fName s.clock).1)
      { s with clock := (File.getInstance fPath fName s.clock).2 }).2
  | .newDirectory dPath, s =>
    (Process.alloc (.directory (Directory.getInstance dPath s.clock).1)
      { s with clock := (Directory.getInstance dPath s.clock).2 }).2

/-- Effect of a sequence of steps, first step first. -/
def runProcess : List ProcessCall → Process → Process
  | [], s => s
  | c :: cs, s => runProcess cs (c.run s)

end VFS

/-! ## Sample inputs and invariants -/

namespace VFS

/-- A clock under UTC whose readings are 10, 20, 30, ... and which has not been read
yet. -/
def sampleClock : Clock :=
  { readings := fun n => 10 * n + 10, calls := 0, zone := fun t => t }

/-- A file created at `/docs/` under the name `a.txt` with `sampleClock`. -/
def sampleFile : File × Clock := File.getInstance "/docs/" "a.txt" sampleClock

/-- A clock under UTC that is read once a day, starting 1970-01-01 00:00:00. -/
def dailyClock : Clock :=
  { readings := fun n => 86400 * n, calls := 0, zone := fun t => t }

/-- A clock in the zone America/New_York read once an hour from 2024-11-03 05:30:00 UTC
on; daylight saving time ends at 06:00:00 UTC (1730613600), where the offset from UTC
goes from four to five hours. -/
def easternClock : Clock :=
  { readings := fun n => 1730611800 + 3600 * n
    calls := 0
    zone := fun t => if t < 1730613600 then t - 14400 else t - 18000 }

/-- Where the timestamps of a file come from: the creation date is the text of reading
number `k` and the modification date the text of a reading number `i` with `k ≤ i`,
both taken before the next reading of the clock, whose readings are `r` in the time
zone `zone`. -/
def Stamped (r zone : Nat → Nat) (k : Nat) (s : File × Clock) : Prop :=
  ∃ i, k ≤ i ∧ i < s.2.calls ∧ s.1._creationDate = asctime (localtime zone (r k)) ∧
    s.1._modificationDate = asctime (localtime zone (r i)) ∧
    s.2.readings = r ∧ s.2.zone = zone

/-- The static member `AbstractDriver::instance` is `NULL` or addresses a driver object
whose `rootElement` addresses an object. -/
def Process.InstanceValid (s : Process) : Prop :=
  s.instancePtr = none ∨
    ∃ a b d root, s.instancePtr = some a ∧ s.heap[a]? = some (.driver d) ∧
      d.rootElement = some b ∧ s.heap[b]? = some root

end VFS

/-! ## Auxiliary lemmas -/

namespace VFS

theorem File.write_unrecognized (d : String) (mode : Char) (f : File) (clk : Clock)
    (hw : mode ≠ MODE_REWRITE) (ha : mode ≠ MODE_WRITE) :
    File.write d mode f clk = (f, clk) := by
  unfold File.write File.writeSwitch
  rw [if_neg hw, if_neg ha]

theorem File.write_of_switch (d : String) (mode : Char) (f g : File) (clk : Clock)
    (h : File.writeSwitch d mode f = some g) :
    File.write d mode f clk =
      ({ g with _modificationDate := (VFSObjectTime.initCurrentDate clk).1 },
        (VFSObjectTime.initCurrentDate clk).2) := by
  unfold File.write
  rw [h]

theorem File.writeSwitch_recognized (d : String) (mode : Char) (f : File)
    (hm : mode = MODE_REWRITE ∨ mode = MODE_WRITE) :
    ∃ g, File.writeSwitch d mode f = some g ∧ g._creationDate = f._creationDate := by
  unfold File.writeSwitch
  rcases hm with h | h
  · rw [if_pos h]
    exact ⟨_, rfl, rfl⟩
  · have hw : mode ≠ MODE_REWRITE := by rw [h]; decide
    rw [if_neg hw, if_pos h]
    exact ⟨_, rfl, rfl⟩

theorem stamped_modificationDate (g : File) (now : String × Clock) :
    (({ g with _modificationDate := now.1 }, now.2) : File × Clock).1._modificationDate =
      now.1 := rfl

theorem stamped_creationDate (g : File) (now : String × Clock) :
    (({ g with _modificationDate := now.1 }, now.2) : File × Clock).1._creationDate =
      g._creationDate := rfl

theorem stamped_clock (g : File) (now : String × Clock) :
    (({ g with _modificationDate := now.1 }, now.2) : File × Clock).2 = now.2 := rfl

theorem initCurrentDate_fst (clk : Clock) :
    (VFSObjectTime.initCurrentDate clk).1 =
      asctime (localtime clk.zone (clk.readings clk.calls)) := rfl

theorem initCurrentDate_snd (clk : Clock) :
    (VFSObjectTime.initCurrentDate clk).2 = { clk with calls := clk.calls + 1 } := rfl

theorem File.write_recognized (d : String) (mode : Char) (f : File) (clk : Clock)
    (hm : mode = MODE_REWRITE ∨ mode = MODE_WRITE) :
    (File.write d mode f clk).1._modificationDate =
      asctime (localtime clk.zone (clk.readings clk.calls)) ∧
    (File.write d mode f clk).1._creationDate = f._creationDate ∧
    (File.write d mode f clk).2 = { clk with calls := clk.calls + 1 } := by
  obtain ⟨g, hg, hc⟩ := File.writeSwitch_recognized d mode f hm
  have hw := File.write_of_switch d mode f g clk hg
  refine ⟨?_, ?_, ?_⟩
  · exact (congrArg (fun x => x.1._modificationDate) hw).trans
      ((stamped_modificationDate g _).trans (initCurrentDate_fst clk))
  · exact (congrArg (fun x => x.1._creationDate) hw).trans
      ((stamped_creationDate g _).trans hc)
  · exact (congrArg (fun x => x.2) hw).trans
      ((stamped_clock g _).trans (initCurrentDate_snd clk))

theorem File.write_stamp (d : String) (mode : Char) (f : File) (clk : Clock)
    (hm : mode = MODE_REWRITE ∨ mode = MODE_WRITE) :
    (File.write d mode f clk).1.modificationDate = (VFSObjectTime.initCurrentDate clk).1 := by
  obtain ⟨g, hg, -⟩ := File.writeSwitch_recognized d mode f hm
  exact (congrArg (fun x => x.1._modificationDate)
    (File.write_of_switch d mode f g clk hg)).trans (stamped_modificationDate g _)

theorem stamped_getInstance (r zone : Nat → Nat) (k : Nat) (fPath fName : String) :
    Stamped r zone k
      (File.getInstance fPath fName { readings := r, calls := k, zone := zone }) :=
  ⟨k, le_refl k, Nat.lt_succ_self k, rfl, rfl, rfl, rfl⟩

theorem stamped_write (r zone : Nat → Nat) (k : Nat) (d : String) (mode : Char)
    (s : File × Clock) (hs : Stamped r zone k s) :
    Stamped r zone k (File.write d mode s.1 s.2) := by
  obtain ⟨i, hki, hi, hc, hm, hr, hz⟩ := hs
  by_cases h : mode = MODE_REWRITE ∨ mode = MODE_WRITE
  · obtain ⟨h1, h2, h3⟩ := File.write_recognized d mode s.1 s.2 h
    refine ⟨s.2.calls, le_of_lt (lt_of_le_of_lt hki hi), ?_, ?_, ?_, ?_, ?_⟩
    · rw [h3]; exact Nat.lt_succ_self _
    · rw [h2]; exact hc
    · rw [h1, hr, hz]
    · rw [h3]; exact hr
    · rw [h3]; exact hz
  · rw [not_or] at h
    rw [File.write_unrecognized d mode s.1 s.2 h.1 h.2]
    exact ⟨i, hki, hi, hc, hm, hr, hz⟩

theorem stamped_call (r zone : Nat → Nat) (k : Nat) (c : FileCall) (s : File × Clock)
    (hs : Stamped r zone k s) : Stamped r zone k (c.run s) := by
  cases c with
  | write newData mode => exact stamped_write r zone k newData mode s hs
  | moveTo newPath =>
    obtain ⟨i, hki, hi, hc, hm, hr, hz⟩ := hs
    exact ⟨i, hki, hi, hc, hm, hr, hz⟩
  | rename newName =>
    obtain ⟨i, hki, hi, hc, hm, hr, hz⟩ := hs
    exact ⟨i, hki, hi, hc, hm, hr, hz⟩
  | clockElsewhere =>
    obtain ⟨i, hki, hi, hc, hm, hr, hz⟩ := hs
    exact ⟨i, hki, Nat.lt_succ_of_lt hi, hc, hm, hr, hz⟩

theorem stamped_runCalls (r zone : Nat → Nat) (k : Nat) (calls : List FileCall)
    (s : File × Clock) (hs : Stamped r zone k s) : Stamped r zone k (runCalls calls s) := by
  induction calls generalizing s with
  | nil => exact hs
  | cons c cs ih => exact ih (c.run s) (stamped_call r zone k c s hs)

theorem runCalls_fSize (calls : List FileCall) (s : File × Clock) :
    (runCalls calls s).1.fSize = (runCalls calls s).1.read.length := rfl

theorem getElem?_append_pair {α : Type} (l : List α) (a b : α) :
    (l ++ [a, b])[l.length]? = some a ∧ (l ++ [a, b])[l.length + 1]? = some b := by
  induction l with
  | nil => exact ⟨rfl, rfl⟩
  | cons x xs ih => simpa using ih

theorem rootObject_of_construct (s : Process) (o : VFSObject) (dn enc : String) :
    Process.rootObject
        { (Process.alloc (.driver ⟨dn, enc, (Process.alloc o s).1⟩) (Process.alloc o s).2).2
            with instancePtr :=
              (Process.alloc (.driver ⟨dn, enc, (Process.alloc o s).1⟩)
                (Process.alloc o s).2).1 }
        (Process.alloc (.driver ⟨dn, enc, (Process.alloc o s).1⟩) (Process.alloc o s).2).1 =
      some o := by
  obtain ⟨h0, h1⟩ := getElem?_append_pair s.heap o (.driver ⟨dn, enc, some s.heap.length⟩)
  simp only [Process.rootObject, Process.getRootElement, Process.alloc, Process.deref,
    List.length_append, List.length_singleton, List.append_assoc, List.singleton_append,
    h0, h1]

theorem create_known_result (s : Process) (n : String)
    (hn : n = DRIVER_NATIVE ∨ n = DRIVER_BLOCK ∨ n = DRIVER_FTP) :
    (DriverFactory.create n s).1 = (DriverFactory.create n s).2.instancePtr ∧
    (DriverFactory.create n s).1 ≠ none := by
  rcases hn with h | h | h <;> subst h <;> by_cases hi : s.instancePtr = none <;>
    simp [DriverFactory.create, DriverNative.getInstance, DriverBlock.getInstance,
      DriverFtp.getInstance, DriverNative.construct, DriverBlock.construct,
      DriverFtp.construct, Process.alloc, hi, DRIVER_NATIVE, DRIVER_BLOCK, DRIVER_FTP]

theorem create_of_instance (s : Process) (n : String) (hi : s.instancePtr ≠ none)
    (hn : n = DRIVER_NATIVE ∨ n = DRIVER_BLOCK ∨ n = DRIVER_FTP) :
    DriverFactory.create n s = (s.instancePtr, s) := by
  rcases hn with h | h | h <;> subst h <;>
    simp [DriverFactory.create, DriverNative.getInstance, DriverBlock.getInstance,
      DriverFtp.getInstance, hi, DRIVER_NATIVE, DRIVER_BLOCK, DRIVER_FTP]

theorem getElem?_append_of_some {α : Type} (l l' : List α) (a : Nat) (o : α)
    (h : l[a]? = some o) : (l ++ l')[a]? = some o := by
  induction l generalizing a with
  | nil => simp at h
  | cons x xs ih =>
    cases a with
    | zero => simpa using h
    | succ a => simpa using ih a (by simpa using h)

theorem instanceValid_append (s t : Process) (l : List VFSObject)
    (hi : t.instancePtr = s.instancePtr) (hh : t.heap = s.heap ++ l)
    (hs : s.InstanceValid) : t.InstanceValid := by
  rcases hs with h | ⟨a, b, d, root, h1, h2, h3, h4⟩
  · exact Or.inl (hi.trans h)
  · refine Or.inr ⟨a, b, d, root, hi.trans h1, ?_, h3, ?_⟩
    · rw [hh]; exact getElem?_append_of_some _ _ _ _ h2
    · rw [hh]; exact getElem?_append_of_some _ _ _ _ h4

theorem instanceValid_construct (s : Process) (o : VFSObject) (dn enc : String) :
    Process.InstanceValid
      { (Process.alloc (.driver ⟨dn, enc, (Process.alloc o s).1⟩) (Process.alloc o s).2).2
          with instancePtr :=
            (Process.alloc (.driver ⟨dn, enc, (Process.alloc o s).1⟩)
              (Process.alloc o s).2).1 } := by
  obtain ⟨h0, h1⟩ := getElem?_append_pair s.heap o (.driver ⟨dn, enc, some s.heap.length⟩)
  refine Or.inr ⟨s.heap.length + 1, s.heap.length, ⟨dn, enc, some s.heap.length⟩, o, ?_, ?_,
    rfl, ?_⟩
  · simp [Process.alloc]
  · simpa [Process.alloc] using h1
  · simpa [Process.alloc] using h0

theorem instanceValid_create (n : String) (s : Process) (hs : s.InstanceValid) :
    (DriverFactory.create n s).2.InstanceValid := by
  by_cases hi : s.instancePtr = none
  · unfold DriverFactory.create
    split_ifs
    · simp only [DriverNative.getInstance, hi, if_true, DriverNative.construct]
      exact instanceValid_construct _ _ _ _
    · simp only [DriverBlock.getInstance, hi, if_true, DriverBlock.construct]
      exact instanceValid_construct _ _ _ _
    · simp only [DriverFtp.getInstance, hi, if_true, DriverFtp.construct]
      exact instanceValid_construct _ _ _ _
    · exact hs
  · unfold DriverFactory.create
    split_ifs
    · simpa only [DriverNative.getInstance, hi, if_false] using hs
    · simpa only [DriverBlock.getInstance, hi, if_false] using hs
    · simpa only [DriverFtp.getInstance, hi, if_false] using hs
    · exact hs

theorem instanceValid_step (c : ProcessCall) (s : Process) (hs : s.InstanceValid) :
    (c.run s).InstanceValid := by
  cases c with
  | create driverName => exact instanceValid_create driverName s hs
  | newFile fPath fName => exact instanceValid_append s _ _ rfl rfl hs
  | newDirectory dPath => exact instanceValid_append s _ _ rfl rfl hs

theorem instanceValid_runProcess (calls : List ProcessCall) (s : Process)
    (hs : s.InstanceValid) : (runProcess calls s).InstanceValid := by
  induction calls generalizing s with
  | nil => exact hs
  | cons c cs ih => exact ih (c.run s) (instanceValid_step c s hs)

end VFS

/-! ## Theorems -/

namespace VFS

/-- C1: after `write(d, MODE_REWRITE)` `read()` returns exactly `d`, and after
`write(d1, MODE_REWRITE)` followed by `write(d2, MODE_WRITE)` `read()` returns
exactly `d1 ++ d2`; this holds for every state of the `File` object and of the clock. -/
theorem write_then_read (f : File) (clk : Clock) (d d1 d2 : String) :
    (File.write d MODE_REWRITE f clk).1.read = d ∧
    (File.write d2 MODE_WRITE (File.write d1 MODE_REWRITE f clk).1
        (File.write d1 MODE_REWRITE f clk).2).1.read = d1 ++ d2 := by
  constructor <;> rfl

/-- C2 (failing input): whatever the clock, in a process that starts by calling
`DriverFactory::create("ftp")`, the next call `DriverFactory::create("native")` returns
the pointer that the first call returned, and `getDriverName()` on it is `"ftp"`,
not `"native"`; nothing is constructed for the second call. -/
theorem create_native_after_ftp (clk : Clock) :
    (DriverFactory.create DRIVER_NATIVE
        (DriverFactory.create DRIVER_FTP (Process.start clk)).2).1 =
      (DriverFactory.create DRIVER_FTP (Process.start clk)).1 ∧
    Process.getDriverName
        (DriverFactory.create DRIVER_NATIVE
          (DriverFactory.create DRIVER_FTP (Process.start clk)).2).2
        (DriverFactory.create DRIVER_NATIVE
          (DriverFactory.create DRIVER_FTP (Process.start clk)).2).1 = some "ftp" ∧
    (DriverFactory.create DRIVER_NATIVE
        (DriverFactory.create DRIVER_FTP (Process.start clk)).2).2 =
      (DriverFactory.create DRIVER_FTP (Process.start clk)).2 := by
  refine ⟨rfl, rfl, rfl⟩

/-- C3 (counterexample): at program start `DriverFactory::create("usb")` returns `NULL`;
no error is reported and the process state is the one before the call. -/
theorem create_usb_returns_null :
    (DriverFactory.create "usb" (Process.start sampleClock)).1 = none ∧
    (DriverFactory.create "usb" (Process.start sampleClock)).2.heap = [] := by
  decide

/-- C3 (amended): for every name other than `"native"`, `"block"` and `"ftp"`,
`DriverFactory::create(name)` returns `NULL` and leaves the process state (clock,
heap, `AbstractDriver::instance`) unchanged. -/
theorem create_unknown_name (name : String) (s : Process)
    (h1 : name ≠ DRIVER_NATIVE) (h2 : name ≠ DRIVER_BLOCK) (h3 : name ≠ DRIVER_FTP) :
    DriverFactory.create name s = (none, s) := by
  simp [DriverFactory.create, h1, h2, h3]

/-- Instance of the amended C3 statement: the name `"usb"` at program start. -/
theorem create_unknown_name_witness :
    "usb" ≠ DRIVER_NATIVE ∧ "usb" ≠ DRIVER_BLOCK ∧ "usb" ≠ DRIVER_FTP ∧
    DriverFactory.create "usb" (Process.start sampleClock) =
      (none, Process.start sampleClock) :=
  ⟨by decide, by decide, by decide,
    create_unknown_name "usb" (Process.start sampleClock)
      (by decide) (by decide) (by decide)⟩

/-- C4 (counterexample): `write("lost", 'x')` on a freshly created file returns
normally with the object and the clock exactly as before the call, and `read()` is
still empty: the data is discarded without any error. -/
theorem write_mode_x_is_silent :
    File.write "lost" 'x' sampleFile.1 sampleFile.2 = (sampleFile.1, sampleFile.2) ∧
    (File.write "lost" 'x' sampleFile.1 sampleFile.2).1.read = "" := by
  refine ⟨rfl, rfl⟩

/-- C4 (amended): for every mode character other than `MODE_REWRITE` and `MODE_WRITE`,
`write(data, mode)` returns normally without reading the clock and leaves every member
of the file unchanged. -/
theorem write_unrecognized_mode (d : String) (mode : Char) (f : File) (clk : Clock)
    (hw : mode ≠ MODE_REWRITE) (ha : mode ≠ MODE_WRITE) :
    File.write d mode f clk = (f, clk) :=
  File.write_unrecognized d mode f clk hw ha

/-- Instance of the amended C4 statement: mode `'x'` on a fresh file. -/
theorem write_unrecognized_mode_witness :
    'x' ≠ MODE_REWRITE ∧ 'x' ≠ MODE_WRITE ∧
    File.write "lost" 'x' sampleFile.1 sampleFile.2 = (sampleFile.1, sampleFile.2) :=
  ⟨by decide, by decide,
    write_unrecognized_mode "lost" 'x' sampleFile.1 sampleFile.2 (by decide) (by decide)⟩

/-- C5: in every state reached from `File::getInstance(path, name)` by a sequence of
`write` (any mode character), `moveTo` and `rename` calls, possibly interleaved with
clock readings for other objects, `fSize()` is the length of the string `read()`
returns; right after creation `read()` is empty and `fSize()` is 0. -/
theorem fSize_eq_length_read (fPath fName : String) (clk : Clock) (calls : List FileCall) :
    (runCalls calls (File.getInstance fPath fName clk)).1.fSize =
      (runCalls calls (File.getInstance fPath fName clk)).1.read.length ∧
    (File.getInstance fPath fName clk).1.read = "" ∧
    (File.getInstance fPath fName clk).1.fSize = 0 :=
  ⟨runCalls_fSize calls _, rfl, rfl⟩

/-- C6 (counterexample): a file is created when the clock reads 10 (UTC); a call made
next would read 20, yet after `moveTo("/srv/")` and after `rename("b.txt")`
`modificationDate()` is still the text of reading 10, while after `write("x", 'w')` it
is the text of reading 20. -/
theorem moveTo_rename_keep_stamp :
    (VFSObjectTime.initCurrentDate sampleFile.2).1 = "Thu Jan  1 00:00:20 1970\n" ∧
    (File.moveTo "/srv/" sampleFile.1).modificationDate = "Thu Jan  1 00:00:10 1970\n" ∧
    (File.rename "b.txt" sampleFile.1).modificationDate = "Thu Jan  1 00:00:10 1970\n" ∧
    (File.moveTo "/srv/" sampleFile.1).modificationDate ≠
      (VFSObjectTime.initCurrentDate sampleFile.2).1 ∧
    (File.rename "b.txt" sampleFile.1).modificationDate ≠
      (VFSObjectTime.initCurrentDate sampleFile.2).1 ∧
    (File.write "x" 'w' sampleFile.1 sampleFile.2).1.modificationDate =
      "Thu Jan  1 00:00:20 1970\n" := by
  decide

/-- C6 (amended): `moveTo(newPath)` and `rename(newName)` leave `modificationDate()`
as it was (they do not read the clock); after a `write` with mode `MODE_REWRITE` or
`MODE_WRITE` `modificationDate()` equals what `initCurrentDate` returns for the clock
reading taken at that call. -/
theorem modificationDate_after_calls (f : File) (clk : Clock) (p n d : String) :
    (File.moveTo p f).modificationDate = f.modificationDate ∧
    (File.rename n f).modificationDate = f.modificationDate ∧
    (File.write d MODE_REWRITE f clk).1.modificationDate =
      (VFSObjectTime.initCurrentDate clk).1 ∧
    (File.write d MODE_WRITE f clk).1.modificationDate =
      (VFSObjectTime.initCurrentDate clk).1 :=
  ⟨rfl, rfl, File.write_stamp d MODE_REWRITE f clk (Or.inl rfl),
    File.write_stamp d MODE_WRITE f clk (Or.inr rfl)⟩

/-- C7 (counterexample): two clocks with strictly increasing readings.  Under UTC a file
is created at 1970-01-01 00:00:00 and rewritten a day later: `modificationDate()` is
then `"Fri Jan  2 00:00:00 1970\n"`, which is smaller than `creationDate()`,
`"Thu Jan  1 00:00:00 1970\n"`, in the order of strings.  In the zone America/New_York
a file is created at 05:30:00 UTC on 2024-11-03 and rewritten an hour later, after the
end of daylight saving time: `modificationDate()` equals `creationDate()`. -/
theorem stamp_texts_not_ordered :
    StrictMono dailyClock.readings ∧ StrictMono easternClock.readings ∧
    (File.getInstance "/docs/" "a.txt" dailyClock).1.creationDate =
      "Thu Jan  1 00:00:00 1970\n" ∧
    (File.write "x" 'w' (File.getInstance "/docs/" "a.txt" dailyClock).1
        (File.getInstance "/docs/" "a.txt" dailyClock).2).1.modificationDate =
      "Fri Jan  2 00:00:00 1970\n" ∧
    (File.write "x" 'w' (File.getInstance "/docs/" "a.txt" dailyClock).1
        (File.getInstance "/docs/" "a.txt" dailyClock).2).1.modificationDate <
      (File.getInstance "/docs/" "a.txt" dailyClock).1.creationDate ∧
    (File.getInstance "/docs/" "a.txt" easternClock).1.creationDate =
      "Sun Nov  3 01:30:00 2024\n" ∧
    (File.write "x" 'w' (File.getInstance "/docs/" "a.txt" easternClock).1
        (File.getInstance "/docs/" "a.txt" easternClock).2).1.modificationDate =
      (File.getInstance "/docs/" "a.txt" easternClock).1.creationDate := by
  refine ⟨?_, ?_, by decide, by decide, ?_, by decide, by decide⟩
  · intro a b h
    show 86400 * a < 86400 * b
    omega
  · intro a b h
    show 1730611800 + 3600 * a < 1730611800 + 3600 * b
    omega
  · rw [String.lt_iff_toList_lt]
    decide

/-- C7 (amended): let the clock readings `r` be non-decreasing, in any time zone, let a
file be created by `File::getInstance` at reading number `k` and then go through any
sequence of calls, after which the clock has been read `m` times.  `creationDate()` is
the text `asctime(localtime(r k))` before and after a further `write` with mode
`MODE_REWRITE` or `MODE_WRITE`; `modificationDate()` before that write is the text of a
reading `r i` with `k ≤ i < m`, and after it the text of the reading `r m` taken at the
call.  The reading `r m` is at least `r k` and `r i`, and strictly greater when `r` is
strictly increasing.  A fresh file has `modificationDate() == creationDate()`. -/
theorem write_stamps_later_reading (r zone : Nat → Nat) (hr : Monotone r) (k : Nat)
    (fPath fName : String) (calls : List FileCall) (d : String) (mode : Char)
    (hm : mode = MODE_REWRITE ∨ mode = MODE_WRITE) :
    (runCalls calls (File.getInstance fPath fName ⟨r, k, zone⟩)).1.creationDate =
      asctime (localtime zone (r k)) ∧
    (File.write d mode (runCalls calls (File.getInstance fPath fName ⟨r, k, zone⟩)).1
        (runCalls calls (File.getInstance fPath fName ⟨r, k, zone⟩)).2).1.creationDate =
      asctime (localtime zone (r k)) ∧
    (File.write d mode (runCalls calls (File.getInstance fPath fName ⟨r, k, zone⟩)).1
        (runCalls calls (File.getInstance fPath fName ⟨r, k, zone⟩)).2).1.modificationDate =
      asctime (localtime zone
        (r (runCalls calls (File.getInstance fPath fName ⟨r, k, zone⟩)).2.calls)) ∧
    r k ≤ r (runCalls calls (File.getInstance fPath fName ⟨r, k, zone⟩)).2.calls ∧
    (StrictMono r →
      r k < r (runCalls calls (File.getInstance fPath fName ⟨r, k, zone⟩)).2.calls) ∧
    (∃ i, k ≤ i ∧ i < (runCalls calls (File.getInstance fPath fName ⟨r, k, zone⟩)).2.calls ∧
      (runCalls calls (File.getInstance fPath fName ⟨r, k, zone⟩)).1.modificationDate =
        asctime (localtime zone (r i)) ∧
      r i ≤ r (runCalls calls (File.getInstance fPath fName ⟨r, k, zone⟩)).2.calls ∧
      (StrictMono r →
        r i < r (runCalls calls (File.getInstance fPath fName ⟨r, k, zone⟩)).2.calls)) ∧
    (File.getInstance fPath fName ⟨r, k, zone⟩).1.modificationDate =
      (File.getInstance fPath fName ⟨r, k, zone⟩).1.creationDate := by
  obtain ⟨i, hki, hi, hc, hmod, hread, hzone⟩ :=
    stamped_runCalls r zone k calls _ (stamped_getInstance r zone k fPath fName)
  obtain ⟨h1, h2, -⟩ := File.write_recognized d mode
    (runCalls calls (File.getInstance fPath fName ⟨r, k, zone⟩)).1
    (runCalls calls (File.getInstance fPath fName ⟨r, k, zone⟩)).2 hm
  have hk := lt_of_le_of_lt hki hi
  refine ⟨hc, h2.trans hc, ?_, hr (le_of_lt hk), fun hs => hs hk,
    ⟨i, hki, hi, hmod, hr (le_of_lt hi), fun hs => hs hi⟩, rfl⟩
  show (File.write d mode _ _).1._modificationDate = _
  rw [h1, hread, hzone]

/-- Instance of the amended C7 statement: readings 0, 1, 2, ... under UTC, a file
created at reading 3, rewritten, moved, then appended to. -/
theorem write_stamps_later_reading_witness :
    Monotone (fun n : Nat => n) ∧ ('a' = MODE_REWRITE ∨ 'a' = MODE_WRITE) ∧
    (File.write "c" 'a'
        (runCalls [.write "ab" 'w', .moveTo "/srv/"]
          (File.getInstance "/docs/" "a.txt" ⟨fun n => n, 3, fun t => t⟩)).1
        (runCalls [.write "ab" 'w', .moveTo "/srv/"]
          (File.getInstance "/docs/" "a.txt" ⟨fun n => n, 3, fun t => t⟩)).2).1.creationDate =
      asctime (localtime (fun t => t) 3) :=
  ⟨fun _ _ h => h, Or.inr rfl,
    (write_stamps_later_reading (fun n => n) (fun t => t) (fun _ _ h => h) 3 "/docs/"
      "a.txt" [.write "ab" 'w', .moveTo "/srv/"] "c" 'a' (Or.inr rfl)).2.1⟩

/-- C8: after `moveTo(q)` the file is at `q` (`path() == q`, hence `path()` is the old
path only when `q` is the old path), `read()` returns the content from before the move,
and `name()`, `fSize()` and `creationDate()` are unchanged. -/
theorem moveTo_relocates (f : File) (q : String) :
    (File.moveTo q f).path = q ∧
    ((File.moveTo q f).path = f.path ↔ q = f.path) ∧
    (File.moveTo q f).read = f.read ∧
    (File.moveTo q f).name = f.name ∧
    (File.moveTo q f).fSize = f.fSize ∧
    (File.moveTo q f).creationDate = f.creationDate :=
  ⟨rfl, Iff.rfl, rfl, rfl, rfl, rfl⟩

/-- C9: in every process state reached from program start by calls of
`DriverFactory::create` (any names) and creations of files and directories, for `n`
among `"native"`, `"block"`, `"ftp"` two successive calls `DriverFactory::create(n)`
return the same non-null pointer; it addresses a driver object, the same after both
calls, whose `getRootElement()` addresses one and the same root object; the second call
leaves the process state (heap, clock, `AbstractDriver::instance`) untouched, so it
constructs nothing. -/
theorem create_twice_same_instance (clk : Clock) (calls : List ProcessCall) (n : String)
    (hn : n = DRIVER_NATIVE ∨ n = DRIVER_BLOCK ∨ n = DRIVER_FTP) :
    (DriverFactory.create n
        (DriverFactory.create n (runProcess calls (Process.start clk))).2).1 =
      (DriverFactory.create n (runProcess calls (Process.start clk))).1 ∧
    (DriverFactory.create n (runProcess calls (Process.start clk))).1 ≠ none ∧
    (DriverFactory.create n
        (DriverFactory.create n (runProcess calls (Process.start clk))).2).2 =
      (DriverFactory.create n (runProcess calls (Process.start clk))).2 ∧
    ∃ d root,
      Process.deref (DriverFactory.create n (runProcess calls (Process.start clk))).2
          (DriverFactory.create n (runProcess calls (Process.start clk))).1 =
        some (.driver d) ∧
      Process.deref
          (DriverFactory.create n
            (DriverFactory.create n (runProcess calls (Process.start clk))).2).2
          (DriverFactory.create n
            (DriverFactory.create n (runProcess calls (Process.start clk))).2).1 =
        some (.driver d) ∧
      Process.getRootElement (DriverFactory.create n (runProcess calls (Process.start clk))).2
          (DriverFactory.create n (runProcess calls (Process.start clk))).1 =
        d.rootElement ∧
      Process.getRootElement
          (DriverFactory.create n
            (DriverFactory.create n (runProcess calls (Process.start clk))).2).2
          (DriverFactory.create n
            (DriverFactory.create n (runProcess calls (Process.start clk))).2).1 =
        d.rootElement ∧
      Process.rootObject (DriverFactory.create n (runProcess calls (Process.start clk))).2
          (DriverFactory.create n (runProcess calls (Process.start clk))).1 = some root ∧
      Process.rootObject
          (DriverFactory.create n
            (DriverFactory.create n (runProcess calls (Process.start clk))).2).2
          (DriverFactory.create n
            (DriverFactory.create n (runProcess calls (Process.start clk))).2).1 =
        some root := by
  have hv := instanceValid_create n _
    (instanceValid_runProcess calls (Process.start clk) (Or.inl rfl))
  generalize runProcess calls (Process.start clk) = s at hv ⊢
  obtain ⟨he, hne⟩ := create_known_result s n hn
  have h2 := create_of_instance (DriverFactory.create n s).2 n (he ▸ hne) hn
  rw [h2, ← he]
  generalize DriverFactory.create n s = res at hv he hne ⊢
  rcases hv with h | ⟨a, b, d, root, h1, h3, h4, h5⟩
  · exact absurd (he.trans h) hne
  · have hd : res.2.deref res.1 = some (.driver d) := by
      rw [he, h1]; exact h3
    have hr : res.2.getRootElement res.1 = d.rootElement := by
      unfold Process.getRootElement; rw [hd]
    have ho : res.2.rootObject res.1 = some root := by
      unfold Process.rootObject; rw [hr, h4]; exact h5
    exact ⟨rfl, hne, rfl, d, root, hd, hd, hr, hr, ho, ho⟩

/-- Instance of the C9 statement: the name `"ftp"` after a file was created and
`DriverFactory::create("native")` was called. -/
theorem create_twice_same_instance_witness :
    (DRIVER_FTP = DRIVER_NATIVE ∨ DRIVER_FTP = DRIVER_BLOCK ∨ DRIVER_FTP = DRIVER_FTP) ∧
    (DriverFactory.create DRIVER_FTP
        (DriverFactory.create DRIVER_FTP
          (runProcess [.newFile "/docs/" "a.txt", .create "native"]
            (Process.start sampleClock))).2).1 =
      (DriverFactory.create DRIVER_FTP
        (runProcess [.newFile "/docs/" "a.txt", .create "native"]
          (Process.start sampleClock))).1 :=
  ⟨Or.inr (Or.inr rfl),
    (create_twice_same_instance sampleClock [.newFile "/docs/" "a.txt", .create "native"]
      DRIVER_FTP (Or.inr (Or.inr rfl))).1⟩

/-- C10: in a process state where `AbstractDriver::instance` is still `NULL`, the driver
returned by `DriverFactory::create` exposes its designated root: for `"native"` a file
named `"syscall"`, for `"block"` a file named `"block.binary"`, both with empty path and
empty content and stamped with the text of the current clock reading, and for `"ftp"` a directory
with path `"/"`. -/
theorem create_designated_root (s : Process) (h : s.instancePtr = none) :
    Process.rootObject (DriverFactory.create DRIVER_NATIVE s).2
        (DriverFactory.create DRIVER_NATIVE s).1 =
      some (.file { _path := "", _name := "syscall"
                    _creationDate := (VFSObjectTime.initCurrentDate s.clock).1
                    _modificationDate := (VFSObjectTime.initCurrentDate s.clock).1
                    data := "" }) ∧
    Process.rootObject (DriverFactory.create DRIVER_BLOCK s).2
        (DriverFactory.create DRIVER_BLOCK s).1 =
      some (.file { _path := "", _name := "block.binary"
                    _creationDate := (VFSObjectTime.initCurrentDate s.clock).1
                    _modificationDate := (VFSObjectTime.initCurrentDate s.clock).1
                    data := "" }) ∧
    Process.rootObject (DriverFactory.create DRIVER_FTP s).2
        (DriverFactory.create DRIVER_FTP s).1 =
      some (.directory { _path := "/"
                         _creationDate := (VFSObjectTime.initCurrentDate s.clock).1 }) := by
  refine ⟨?_, ?_, ?_⟩
  · simpa [DriverFactory.create, DriverNative.getInstance, DriverNative.construct, h,
      File.getInstance, VFSObjectTime.initCurrentDate, DRIVER_NATIVE, ROOT_NATIVE,
      EMPTY_VALUE] using
      rootObject_of_construct { s with clock := (File.getInstance "" "syscall" s.clock).2 }
        (.file (File.getInstance "" "syscall" s.clock).1) "native" ENCODING_ASCII
  · simpa [DriverFactory.create, DriverBlock.getInstance, DriverBlock.construct, h,
      File.getInstance, VFSObjectTime.initCurrentDate, DRIVER_NATIVE, DRIVER_BLOCK,
      ROOT_BLOCK, EMPTY_VALUE] using
      rootObject_of_construct
        { s with clock := (File.getInstance "" "block.binary" s.clock).2 }
        (.file (File.getInstance "" "block.binary" s.clock).1) "block" ENCODING_LATIN_1
  · simpa [DriverFactory.create, DriverFtp.getInstance, DriverFtp.construct, h,
      Directory.getInstance, VFSObjectTime.initCurrentDate, DRIVER_NATIVE, DRIVER_BLOCK,
      DRIVER_FTP, ROOT_FTP] using
      rootObject_of_construct { s with clock := (Directory.getInstance "/" s.clock).2 }
        (.directory (Directory.getInstance "/" s.clock).1) "ftp" ENCODING_UTF_8

/-- Instance of the C10 statement: program start with clock readings 10, 20, ... -/
theorem create_designated_root_witness :
    (Process.start sampleClock).instancePtr = none ∧
    Process.rootObject (DriverFactory.create DRIVER_FTP (Process.start sampleClock)).2
        (DriverFactory.create DRIVER_FTP (Process.start sampleClock)).1 =
      some (.directory { _path := "/", _creationDate := "Thu Jan  1 00:00:10 1970\n" }) :=
  ⟨rfl, (create_designated_root (Process.start sampleClock) rfl).2.2⟩

end VFS
